import Mathlib

/-!
kdl_utils: integrator, constraint formulation and CSV logging.

A shallow embedding of the parts of `kdl_utils` (headers `kdl_utils/utils.hpp`,
`kdl_utils/solver_utils.hpp`, `motion_spec_utils/log_structs.hpp`) that the
specification talks about, followed by the theorems relating the two.

Conventions of the embedding.

* `double` values are elements of a type parameter `α`.  The logging code only
  moves values around, so there `α` is arbitrary; the integrator needs `+`, `*`
  and the comparison with `0`, so there `α` is a linearly ordered ring (exact
  arithmetic; rounding is not modelled).
* `double*` buffers are lists, `double**` buffers are lists of rows.
* `int` fields are `Int`.
* A `void` function that mutates its receiver becomes a function returning the
  receiver after the call, paired with the outcome of the call where the call
  can fail.
* `printf`-style conversion of a `double` is a parameter `fmt : α → String`.
* A `FILE*` opened for writing is the list of chunks written to it so far, one
  chunk per `fprintf` call, oldest first.
* A pointer member that is used before anything initialises it is a parameter
  telling what it happens to point to; an access outside that storage, or
  outside a buffer, ends the call as undefined.
-/

namespace KdlUtils

/-! ## Failures named by the specification -/

/-- Typed failures of the control core, as the specification names them. -/
inductive CoreError where
  | InvalidTimestepError
  | ConstraintSizeMismatchError
  | InvalidDimensionError
  deriving DecidableEq, Repr

/-! ## Robot state (`kdl_utils/utils.hpp`) -/

/-- Robot state `struct Kinova` of `utils.hpp`: joint count, segment count, the
three per-joint arrays and the three per-segment arrays. -/
structure Kinova (α : Type) where
  nj : Int
  ns : Int
  q : List α
  q_dot : List α
  q_ddot : List α
  s : List (List α)
  s_dot : List (List α)
  s_ddot : List (List α)

/-- The per-joint arrays that the integrator touches have `nj` entries. -/
def Kinova.JointArraysSized {α : Type} (rob : Kinova α) : Prop :=
  (rob.q.length : Int) = rob.nj ∧ (rob.q_dot.length : Int) = rob.nj

instance {α : Type} (rob : Kinova α) : Decidable rob.JointArraysSized := by
  unfold Kinova.JointArraysSized
  infer_instance

section Integrator

variable {α : Type} [LinearOrderedRing α]

/-- Elementwise `x += y * dt` on two buffers. -/
def addScaled (x y : List α) (dt : α) : List α :=
  List.zipWith (fun a b => a + b * dt) x y

/-- Modelled from the spec: the body of `updateQandQdot` (declared in
`utils.hpp`, defined in a source file that is not part of the sources at hand).
Spec 4.6: fails with `InvalidTimestepError` if `dt <= 0`; otherwise mutates
`state.q_dot += q_ddot * dt` and then `state.q += q_dot * dt`, the second step
reading the velocity that the first step has just written. -/
def updateQandQdot (q_ddot : List α) (dt : α) (rob : Kinova α) :
    Except CoreError Unit × Kinova α :=
  if dt ≤ 0 then
    (Except.error CoreError.InvalidTimestepError, rob)
  else
    let rob1 := { rob with q_dot := addScaled rob.q_dot q_ddot dt }
    let rob2 := { rob1 with q := addScaled rob1.q rob1.q_dot dt }
    (Except.ok (), rob2)

/-- The pair of joint arrays `(q, qd)` that `SolverUtils::updateQandQd` mutates. -/
structure JntState (α : Type) where
  q : List α
  qd : List α

/-- Modelled from the spec: the body of `SolverUtils::updateQandQd` (declared in
`solver_utils.hpp`, defined in a source file that is not part of the sources at
hand).  Same contract as `updateQandQdot` (spec 4.6), on a pair of joint
arrays. -/
def SolverUtils.updateQandQd (st : JntState α) (qdd : List α) (dt : α) :
    Except CoreError Unit × JntState α :=
  if dt ≤ 0 then
    (Except.error CoreError.InvalidTimestepError, st)
  else
    let st1 := { st with qd := addScaled st.qd qdd dt }
    let st2 := { st1 with q := addScaled st1.q st1.qd dt }
    (Except.ok (), st2)

/-- An all-zero acceleration array of `n` entries. -/
def zeroArray (n : Nat) : List α := List.replicate n 0

end Integrator

/-! ## Constraint formulator (`kdl_utils/solver_utils.hpp`) -/

/-- Constraint set of spec section 3: `alpha` is kept as the list of its
columns, left to right (each column a 6-vector), `beta` as the list of its
entries. -/
structure ConstraintSet (α : Type) where
  alpha : List (List α)
  beta : List α

/-- Modelled from the spec: `buildConstraints` of spec section 4.4, the contract
of the bodies of `SolverUtils::initializeVereshchaginSolver`,
`SolverUtils::populateAlphaUnitForces` and `SolverUtils::updateBetaEnergy`
(declared in `solver_utils.hpp`, defined in a source file that is not part of
the sources at hand).  Fails with `ConstraintSizeMismatchError` if
`len(columns) != len(targets)`; otherwise each column is placed in `alpha` in
the given order and each target is stored into `beta`, after gravity
compensation when a compensation vector is given.  The spec leaves the sign
convention of the compensation open, so `compensate g column target` is a
parameter: the target of the constraint along `column`, compensated by `g`. -/
def buildConstraints {α : Type} (compensate : List α → List α → α → α)
    (columns : List (List α)) (targets : List α)
    (gravityCompensation : Option (List α)) : Except CoreError (ConstraintSet α) :=
  if columns.length ≠ targets.length then
    Except.error CoreError.ConstraintSizeMismatchError
  else
    match gravityCompensation with
    | none => Except.ok { alpha := columns, beta := targets }
    | some g =>
      Except.ok { alpha := columns, beta := List.zipWith (compensate g) columns targets }

/-! ## Robot state initialisation (`kdl_utils/utils.hpp`) -/

/-- A per-segment buffer of `n` rows of six zeros. -/
def zeroSegments {α : Type} [Zero α] (n : Nat) : List (List α) :=
  List.replicate n (List.replicate 6 0)

/-- Modelled from the spec: the bodies of the two overloads of
`initialize_robot_state` (declared in `utils.hpp`, defined in a source file that
is not part of the sources at hand); `init_q = none` is the overload without
`init_q`.  Spec 4.2: fails with `InvalidDimensionError` if `nj <= 0` or
`ns <= 0`; all arrays are zero-initialised except `q`, which takes `init_q` if
supplied, and `init_q` must have length `nj`, else `InvalidDimensionError`. -/
def initialize_robot_state {α : Type} [Zero α] (num_joints num_segments : Int)
    (init_q : Option (List α)) : Except CoreError (Kinova α) :=
  if num_joints ≤ 0 ∨ num_segments ≤ 0 then
    Except.error CoreError.InvalidDimensionError
  else
    let zeros : List α := List.replicate num_joints.toNat 0
    let blank : Kinova α :=
      { nj := num_joints, ns := num_segments,
        q := zeros, q_dot := zeros, q_ddot := zeros,
        s := zeroSegments num_segments.toNat,
        s_dot := zeroSegments num_segments.toNat,
        s_ddot := zeroSegments num_segments.toNat }
    match init_q with
    | none => Except.ok blank
    | some q0 =>
      if (q0.length : Int) ≠ num_joints then
        Except.error CoreError.InvalidDimensionError
      else
        Except.ok { blank with q := q0 }

/-! ## Process, console and files (`cstdio`, `iostream`) -/

/-- A `FILE*` opened for writing: the chunks written so far, one per `fprintf`
call and oldest first, and whether `fclose` has been called. -/
structure FILE where
  written : List String
  closed : Bool
  deriving DecidableEq, Repr

/-- What `fopen(path, "w")` returns when it succeeds: an empty open file. -/
def FILE.fresh : FILE := { written := [], closed := false }

/-- One `fprintf(file, ...)` call whose formatted output is `chunk`. -/
def fprintf (file : FILE) (chunk : String) : FILE :=
  { file with written := file.written ++ [chunk] }

/-- The call `fclose(file)`. -/
def fclose (file : FILE) : FILE :=
  { file with closed := true }

/-- How a call leaves the process: it returns `value` to the caller, or the
process has exited with `status` through `exit`, or the call has reached a
statement whose behaviour the language leaves undefined (a write or a read
through a pointer that points to no suitable storage), after which nothing is
said about the process.  In all cases `stderr` holds the chunks the call has
printed to standard error up to that point, oldest first. -/
inductive Proc (σ : Type) where
  | returned (stderr : List String) (value : σ)
  | exited (stderr : List String) (status : Int)
  | undefined (stderr : List String)

/-- The call returned to its caller. -/
def Proc.isReturned {σ : Type} : Proc σ → Bool
  | Proc.returned _ _ => true
  | Proc.exited _ _ => false
  | Proc.undefined _ => false

/-- What the call printed to standard error. -/
def Proc.stderr {σ : Type} : Proc σ → List String
  | Proc.returned e _ => e
  | Proc.exited e _ => e
  | Proc.undefined e => e

/-- The status the process exited with, if the call made it exit. -/
def Proc.exitStatus {σ : Type} : Proc σ → Option Int
  | Proc.returned _ _ => none
  | Proc.exited _ status => some status
  | Proc.undefined _ => none

/-- The call reached a statement with undefined behaviour. -/
def Proc.isUndefined {σ : Type} : Proc σ → Bool
  | Proc.returned _ _ => false
  | Proc.exited _ _ => false
  | Proc.undefined _ => true

/-- What a `char *` member that no constructor initialises points to when the
constructor body runs: `none` when it points to no writable storage, `some cap`
when it happens to point to `cap` writable bytes (as when the object is built
in memory that was prepared beforehand). -/
abbrev CharStorage : Type := Option Nat

/-- Whether `sprintf(dst, ...)` with formatted output `text` stays inside the
storage behind `dst`: the bytes of `text` and the terminating NUL must fit. -/
def sprintfFits (dst : CharStorage) (text : String) : Bool :=
  match dst with
  | none => false
  | some cap => decide (text.utf8ByteSize + 1 ≤ cap)

/-! ## Control log (`motion_spec_utils/log_structs.hpp`) -/

/-- The `struct LogControlData`, fields in declaration order. -/
structure LogControlData (α : Type) where
  measured_value : α
  reference_value : α
  control_singal : α

/-- The method `LogControlData::populate`.  It assigns all three fields, so the
record it is called on (uninitialised at its only call site) does not matter
and is not a parameter. -/
def LogControlData.populate {α : Type} (measured_value reference_value control_signal : α) :
    LogControlData α :=
  { measured_value := measured_value,
    reference_value := reference_value,
    control_singal := control_signal }

/-- The `struct LogControlDataVector`. -/
structure LogControlDataVector (α : Type) where
  control_variable : String
  control_data : List (LogControlData α)
  log_dir : String
  filename : String
  file : FILE

/-- Header line written by the constructor of `LogControlDataVector`. -/
def controlLogHeader : String := "Reference Value,Measured Value,Control Signal\n"

/-- Constructor `LogControlDataVector(control_variable, log_dir)`.  The member
`char *filename` is not initialised before `sprintf(this->filename, ...)` writes
through it: `filenameStorage` is what it points to at that moment, and the
write is undefined unless the formatted name fits that storage.  `canOpen path`
tells whether `fopen(path, "w")` succeeds. -/
def LogControlDataVector.ctor (α : Type) (filenameStorage : CharStorage)
    (canOpen : String → Bool) (control_variable log_dir : String) :
    Proc (LogControlDataVector α) :=
  let filename := log_dir ++ "/control_log_" ++ control_variable ++ ".csv"
  if sprintfFits filenameStorage filename then
    if canOpen filename then
      Proc.returned []
        { control_variable := control_variable,
          control_data := [],
          log_dir := log_dir,
          filename := filename,
          file := fprintf FILE.fresh controlLogHeader }
    else
      Proc.exited ["Error opening file: " ++ filename ++ "\n"] 1
  else
    Proc.undefined []

/-- Destructor `~LogControlDataVector()`: only `fclose(this->file)`. -/
def LogControlDataVector.dtor {α : Type} (self : LogControlDataVector α) :
    LogControlDataVector α :=
  { self with file := fclose self.file }

/-- Output of `fprintf(file, "%f,%f,%f\n", reference_value, measured_value,
control_singal)` for one record, `fmt` being the `%f` conversion. -/
def controlLogRow {α : Type} (fmt : α → String) (d : LogControlData α) : String :=
  fmt d.reference_value ++ "," ++ fmt d.measured_value ++ "," ++ fmt d.control_singal ++ "\n"

/-- The method `LogControlDataVector::writeToOpenFile`: one `fprintf` per buffered
record, in index order, then `control_data.clear()`. -/
def LogControlDataVector.writeToOpenFile {α : Type} (fmt : α → String)
    (self : LogControlDataVector α) : LogControlDataVector α :=
  { self with
    file := self.control_data.foldl (fun f d => fprintf f (controlLogRow fmt d)) self.file,
    control_data := [] }

/-- The method `LogControlDataVector::addControlData`. -/
def LogControlDataVector.addControlData {α : Type} (fmt : α → String)
    (self : LogControlDataVector α) (measured_value reference_value control_signal : α) :
    LogControlDataVector α :=
  let data := LogControlData.populate measured_value reference_value control_signal
  let self1 := { self with control_data := self.control_data ++ [data] }
  if self1.control_data.length ≥ 100 then
    LogControlDataVector.writeToOpenFile fmt self1
  else
    self1

/-- Argument triple of one `addControlData` call:
`(measured_value, reference_value, control_signal)`. -/
abbrev ControlCall (α : Type) : Type := α × α × α

/-- A sequence of `addControlData` calls, in call order. -/
def LogControlDataVector.addControlDataCalls {α : Type} (fmt : α → String)
    (self : LogControlDataVector α) (calls : List (ControlCall α)) :
    LogControlDataVector α :=
  calls.foldl (fun v c => LogControlDataVector.addControlData fmt v c.1 c.2.1 c.2.2) self

/-- The record that `addControlData` buffers for one call. -/
def ControlCall.record {α : Type} (c : ControlCall α) : LogControlData α :=
  LogControlData.populate c.1 c.2.1 c.2.2

/-- A line of comma-separated cells terminated by a newline. -/
def csvLine (cells : List String) : String :=
  String.intercalate "," cells ++ "\n"

/-! ## Manipulator log (`motion_spec_utils/log_structs.hpp`) -/

/-- Modelled from the spec: the type behind `rob->state` of
`Manipulator<kinova_mediator>`, declared in `motion_spec_utils/robot_structs.hpp`
(not part of the sources at hand).  It is the robot state of spec section 3, as
`struct Kinova` declares it, together with the measured tool wrench
`f_tool_measured` that `populateManipulatorData` reads from it. -/
structure ManipulatorState (α : Type) extends Kinova α where
  f_tool_measured : List α

/-- Modelled from the spec: `Manipulator<kinova_mediator>` of
`motion_spec_utils/robot_structs.hpp` (not part of the sources at hand), of
which the log only uses the member `state`. -/
structure Manipulator (α : Type) where
  state : ManipulatorState α

/-- The per-segment buffers that the log reads have `ns` rows of six values and
the measured wrench has six values. -/
def ManipulatorState.Sized {α : Type} (st : ManipulatorState α) : Prop :=
  (st.s.length : Int) = st.ns ∧ (st.s_dot.length : Int) = st.ns ∧
  (∀ row ∈ st.s, row.length = 6) ∧ (∀ row ∈ st.s_dot, row.length = 6) ∧
  st.f_tool_measured.length = 6

instance {α : Type} (st : ManipulatorState α) : Decidable st.Sized := by
  unfold ManipulatorState.Sized
  infer_instance

/-- A read through a segment index that lies outside the per-segment buffer. -/
inductive MemFault where
  | segmentOutOfRange (idx : Int)
  deriving DecidableEq, Repr

/-- The expression `arr[idx]` on a `double**` buffer of `arr.length` rows: the
row when `0 <= idx < arr.length`, a fault otherwise. -/
def segmentRow {α : Type} (arr : List (List α)) (idx : Int) : Except MemFault (List α) :=
  if 0 ≤ idx then
    match arr[idx.toNat]? with
    | some row => Except.ok row
    | none => Except.error (MemFault.segmentOutOfRange idx)
  else
    Except.error (MemFault.segmentOutOfRange idx)

/-- What `std::memcpy(dst, src, n * sizeof(double))` leaves in a destination of
`n` doubles: the first `n` values of `src`. -/
def memcpy {α : Type} (n : Nat) (src : List α) : List α := src.take n

/-- The `struct LogManipulatorData`, fields in declaration order. -/
structure LogManipulatorData (α : Type) where
  f_tool_measured : List α
  tool_pose : List α
  tool_twist : List α
  elbow_pose : List α
  elbow_twist : List α
  beta : List α
  tau_command : List α
  f_tool_command : List α

/-- A default-constructed `LogManipulatorData`: every member array is
value-initialised (`{}`), so all zeros. -/
def LogManipulatorData.fresh {α : Type} [Zero α] : LogManipulatorData α :=
  { f_tool_measured := List.replicate 6 0,
    tool_pose := List.replicate 6 0,
    tool_twist := List.replicate 6 0,
    elbow_pose := List.replicate 6 0,
    elbow_twist := List.replicate 6 0,
    beta := List.replicate 6 0,
    tau_command := List.replicate 7 0,
    f_tool_command := List.replicate 6 0 }

/-- The member arrays have their declared sizes. -/
def LogManipulatorData.Sized {α : Type} (d : LogManipulatorData α) : Prop :=
  d.f_tool_measured.length = 6 ∧ d.tool_pose.length = 6 ∧ d.tool_twist.length = 6 ∧
  d.elbow_pose.length = 6 ∧ d.elbow_twist.length = 6 ∧ d.beta.length = 6 ∧
  d.tau_command.length = 7 ∧ d.f_tool_command.length = 6

instance {α : Type} (d : LogManipulatorData α) : Decidable d.Sized := by
  unfold LogManipulatorData.Sized
  infer_instance

/-- Segment index of the tool in `populateManipulatorData`: `ns - 1`. -/
def toolSegment (ns : Int) : Int := ns - 1

/-- Segment index of the elbow in `populateManipulatorData`: `ns - 4`. -/
def elbowSegment (ns : Int) : Int := ns - 4

/-- Segment indices that `populateManipulatorData` reads, in program order:
`s[ns - 1]`, `s_dot[ns - 1]`, `s[ns - 4]`, `s_dot[ns - 4]`. -/
def populateManipulatorDataReads (ns : Int) : List Int :=
  [toolSegment ns, toolSegment ns, elbowSegment ns, elbowSegment ns]

/-- The method `LogManipulatorData::populateManipulatorData`.  The five `memcpy`
calls run in program order on the record; a read through a segment index
outside the buffer stops the run with a fault, and the record is returned as
the calls before the fault have left it. -/
def LogManipulatorData.populateManipulatorData {α : Type} (self : LogManipulatorData α)
    (rob : Manipulator α) : Except MemFault Unit × LogManipulatorData α :=
  let d1 := { self with f_tool_measured := memcpy 6 rob.state.f_tool_measured }
  match segmentRow rob.state.s (toolSegment rob.state.ns) with
  | Except.error e => (Except.error e, d1)
  | Except.ok r2 =>
    let d2 := { d1 with tool_pose := memcpy 6 r2 }
    match segmentRow rob.state.s_dot (toolSegment rob.state.ns) with
    | Except.error e => (Except.error e, d2)
    | Except.ok r3 =>
      let d3 := { d2 with tool_twist := memcpy 6 r3 }
      match segmentRow rob.state.s (elbowSegment rob.state.ns) with
      | Except.error e => (Except.error e, d3)
      | Except.ok r4 =>
        let d4 := { d3 with elbow_pose := memcpy 6 r4 }
        match segmentRow rob.state.s_dot (elbowSegment rob.state.ns) with
        | Except.error e => (Except.error e, d4)
        | Except.ok r5 =>
          (Except.ok (), { d4 with elbow_twist := memcpy 6 r5 })

/-- The method `LogManipulatorData::populateAchdData`; a null pointer argument is
`none`.  `tau_command` is not tested against null. -/
def LogManipulatorData.populateAchdData {α : Type} (self : LogManipulatorData α)
    (beta : Option (List α)) (tau_command : List α) (f_tool_command : Option (List α))
    (_q_ddot : Option (List α)) : LogManipulatorData α :=
  let d1 := { self with tau_command := memcpy 7 tau_command }
  let d2 :=
    match beta with
    | some b => { d1 with beta := memcpy 6 b }
    | none => d1
  match f_tool_command with
  | some f => { d2 with f_tool_command := memcpy 6 f }
  | none => d2

/-- The method `LogManipulatorData::populate`. -/
def LogManipulatorData.populate {α : Type} (self : LogManipulatorData α)
    (rob : Manipulator α) (beta : Option (List α)) (tau_command : List α)
    (f_tool_command : Option (List α)) (q_ddot : Option (List α)) :
    Except MemFault Unit × LogManipulatorData α :=
  match LogManipulatorData.populateManipulatorData self rob with
  | (Except.error e, d) => (Except.error e, d)
  | (Except.ok (), d) =>
    (Except.ok (), LogManipulatorData.populateAchdData d beta tau_command f_tool_command q_ddot)

/-- The `struct LogManipulatorDataVector`. -/
structure LogManipulatorDataVector (α : Type) where
  arm_name : String
  log_data : List (LogManipulatorData α)
  log_dir : String
  filename : String
  file : FILE

/-- Header line written by the constructor of `LogManipulatorDataVector`: the
adjacent string literals of the `fprintf` call, concatenated as the compiler
does. -/
def manipulatorLogHeader : String :=
  "ee_s_x,ee_s_y,ee_s_z,ee_s_qx,ee_s_qy,ee_s_qz,ee_s_qw," ++
  "ee_twist_x,ee_twist_y,ee_twist_z,ee_twist_qx,ee_twist_qy,ee_twist_qz" ++
  "elbow_s_x,elbow_s_y,elbow_s_z,elbow_s_qx,elbow_s_qy,elbow_s_qz,elbow_s_qw," ++
  "ee_f_e_x, ee_f_e_y, ee_f_e_z, ee_f_e_qx, ee_f_e_qy, ee_f_e_qz," ++
  "ee_beta_x,ee_beta_y,ee_beta_z,ee_beta_qx,ee_beta_qy,ee_beta_qz," ++
  "tau_c_1,tau_c_2,tau_c_3,tau_c_4,tau_c_5,tau_c_6,tau_c_7," ++
  "ee_f_c_x,ee_f_c_y,ee_f_c_z,ee_f_c_qx,ee_f_c_qy,ee_f_c_qz\n"

/-- Constructor `LogManipulatorDataVector(arm_name, log_dir)`.  The member
`char *filename` is not initialised before `sprintf(this->filename, ...)` writes
through it: `filenameStorage` is what it points to at that moment, and the
write is undefined unless the formatted name fits that storage.  `canOpen path`
tells whether `fopen(path, "w")` succeeds. -/
def LogManipulatorDataVector.ctor (α : Type) (filenameStorage : CharStorage)
    (canOpen : String → Bool) (arm_name log_dir : String) :
    Proc (LogManipulatorDataVector α) :=
  let filename := log_dir ++ "/" ++ arm_name ++ "_manipulator_log.csv"
  if sprintfFits filenameStorage filename then
    if canOpen filename then
      Proc.returned []
        { arm_name := arm_name,
          log_data := [],
          log_dir := log_dir,
          filename := filename,
          file := fprintf FILE.fresh manipulatorLogHeader }
    else
      Proc.exited ["Error opening file: " ++ filename ++ "\n"] 1
  else
    Proc.undefined []

/-- The function `appendArrayToStream(ss, arr, size)`: for each of the first
`size` values of `arr`, in order, `ss << arr[i] << ","`; `fmt` is the stream
conversion of a `double`. -/
def appendArrayToStream {α : Type} (fmt : α → String) (ss : String) (arr : List α)
    (size : Nat) : String :=
  (arr.take size).foldl (fun acc v => acc ++ fmt v ++ ",") ss

/-- Output of one iteration of the loop of
`LogManipulatorDataVector::writeToOpenFile`: the eight `appendArrayToStream`
calls on an empty stream, then `fprintf(file, "%s\n", ss.str().c_str())`. -/
def manipulatorLogRow {α : Type} (fmt : α → String) (d : LogManipulatorData α) : String :=
  let ss := ""
  let ss := appendArrayToStream fmt ss d.tool_pose 6
  let ss := appendArrayToStream fmt ss d.tool_twist 6
  let ss := appendArrayToStream fmt ss d.elbow_pose 6
  let ss := appendArrayToStream fmt ss d.elbow_twist 6
  let ss := appendArrayToStream fmt ss d.f_tool_measured 6
  let ss := appendArrayToStream fmt ss d.beta 6
  let ss := appendArrayToStream fmt ss d.tau_command 7
  let ss := appendArrayToStream fmt ss d.f_tool_command 6
  ss ++ "\n"

/-- The method `LogManipulatorDataVector::writeToOpenFile`. -/
def LogManipulatorDataVector.writeToOpenFile {α : Type} (fmt : α → String)
    (self : LogManipulatorDataVector α) : LogManipulatorDataVector α :=
  { self with
    file := self.log_data.foldl (fun f d => fprintf f (manipulatorLogRow fmt d)) self.file,
    log_data := [] }

/-- Destructor `~LogManipulatorDataVector()`: only `fclose(this->file)`. -/
def LogManipulatorDataVector.dtor {α : Type} (self : LogManipulatorDataVector α) :
    LogManipulatorDataVector α :=
  { self with file := fclose self.file }

/-- The characters of a line without its final newline, if it has one. -/
def chompNewline : List Char → List Char
  | [] => []
  | [c] => if c = '\n' then [] else [c]
  | c :: d :: cs => c :: chompNewline (d :: cs)

/-- Cut a sequence of characters at every comma. -/
def splitCommas : List Char → List (List Char)
  | [] => [[]]
  | c :: cs =>
    if c = ',' then
      [] :: splitCommas cs
    else
      match splitCommas cs with
      | [] => [[c]]
      | cell :: rest => (c :: cell) :: rest

/-- Cells of one line of a CSV file, as a reader sees them: the final newline is
dropped and the rest is cut at every comma. -/
def csvCells (line : String) : List String :=
  (splitCommas (chompNewline line.data)).map String.mk

/-! ## Mobile-base log (`motion_spec_utils/log_structs.hpp`) -/

/-- The `struct LogMobileBaseData`, fields in declaration order. -/
structure LogMobileBaseData (α : Type) where
  pivot_angles : List α
  platform_force : List α
  tau_command : List α
  x_platform : List α
  xd_platform : List α

/-- The `struct LogMobileBaseDataVector`. -/
structure LogMobileBaseDataVector (α : Type) where
  log_data : List (LogMobileBaseData α)
  log_dir : String
  filename : String
  file : FILE

/-- Header line written by the constructor of `LogMobileBaseDataVector`. -/
def mobileBaseLogHeader : String :=
  "pivot_1,pivot_2,pivot_3,pivot_4,platform_force_x,platform_force_y,platform_force_z," ++
  "tau_c_1,tau_c_2,tau_c_3,tau_c_4,tau_c_5,tau_c_6,tau_c_7,tau_c_8," ++
  "x_platform_x,x_platform_y,x_platform_qz,xd_platform_x,xd_platform_y,xd_platform_qz\n"

/-- Constructor `LogMobileBaseDataVector(log_dir)`.  The member
`char *filename` is not initialised before `sprintf(this->filename, ...)` writes
through it: `filenameStorage` is what it points to at that moment, and the
write is undefined unless the formatted name fits that storage.  `canOpen path`
tells whether `fopen(path, "w")` succeeds. -/
def LogMobileBaseDataVector.ctor (α : Type) (filenameStorage : CharStorage)
    (canOpen : String → Bool) (log_dir : String) : Proc (LogMobileBaseDataVector α) :=
  let filename := log_dir ++ "/mobile_base_log.csv"
  if sprintfFits filenameStorage filename then
    if canOpen filename then
      Proc.returned []
        { log_data := [],
          log_dir := log_dir,
          filename := filename,
          file := fprintf FILE.fresh mobileBaseLogHeader }
    else
      Proc.exited ["Error opening file: " ++ filename ++ "\n"] 1
  else
    Proc.undefined []

/-- Output of one iteration of the loop of
`LogMobileBaseDataVector::writeToOpenFile`: the five `appendArrayToStream` calls
on an empty stream, then `fprintf(file, "%s\n", ss.str().c_str())`. -/
def mobileBaseLogRow {α : Type} (fmt : α → String) (d : LogMobileBaseData α) : String :=
  let ss := ""
  let ss := appendArrayToStream fmt ss d.pivot_angles 4
  let ss := appendArrayToStream fmt ss d.platform_force 3
  let ss := appendArrayToStream fmt ss d.tau_command 8
  let ss := appendArrayToStream fmt ss d.x_platform 3
  let ss := appendArrayToStream fmt ss d.xd_platform 3
  ss ++ "\n"

/-- The method `LogMobileBaseDataVector::writeToOpenFile`. -/
def LogMobileBaseDataVector.writeToOpenFile {α : Type} (fmt : α → String)
    (self : LogMobileBaseDataVector α) : LogMobileBaseDataVector α :=
  { self with
    file := self.log_data.foldl (fun f d => fprintf f (mobileBaseLogRow fmt d)) self.file,
    log_data := [] }

/-- Destructor `~LogMobileBaseDataVector()`: only `fclose(this->file)`. -/
def LogMobileBaseDataVector.dtor {α : Type} (self : LogMobileBaseDataVector α) :
    LogMobileBaseDataVector α :=
  { self with file := fclose self.file }

/-! ## The operations of `log_structs.hpp` as calls in a process -/

/-- The call of an operation whose body has no statement that writes to a
console stream, no call of `exit` and no access through a pointer of unknown
extent: it prints nothing and returns the value the body computes. -/
def Proc.ofValue {σ : Type} (value : σ) : Proc σ := Proc.returned [] value

/-- The outcome of a call without the value it returns. -/
def Proc.discard {σ : Type} : Proc σ → Proc Unit
  | Proc.returned e _ => Proc.returned e ()
  | Proc.exited e status => Proc.exited e status
  | Proc.undefined e => Proc.undefined e

/-- A one-joint, one-segment robot moving at unit velocity from the origin. -/
def sampleKinova : Kinova Int :=
  { nj := 1, ns := 1, q := [0], q_dot := [1], q_ddot := [0],
    s := [[0, 0, 0, 0, 0, 0]], s_dot := [[0, 0, 0, 0, 0, 0]], s_ddot := [[0, 0, 0, 0, 0, 0]] }

/-- A manipulator state with a tool segment only (`ns = 1`). -/
def sampleShortState : ManipulatorState Int :=
  { nj := 1, ns := 1, q := [0], q_dot := [0], q_ddot := [0],
    s := [[1, 2, 3, 4, 5, 6]], s_dot := [[7, 8, 9, 10, 11, 12]],
    s_ddot := [[0, 0, 0, 0, 0, 0]],
    f_tool_measured := [13, 14, 15, 16, 17, 18] }

/-- A manipulator state with four segments: the elbow is segment 0 and the tool
is segment 3. -/
def sampleArmState : ManipulatorState Int :=
  { nj := 4, ns := 4, q := [0, 0, 0, 0], q_dot := [0, 0, 0, 0], q_ddot := [0, 0, 0, 0],
    s := [[1, 1, 1, 1, 1, 1], [2, 2, 2, 2, 2, 2], [3, 3, 3, 3, 3, 3], [4, 4, 4, 4, 4, 4]],
    s_dot := [[5, 5, 5, 5, 5, 5], [6, 6, 6, 6, 6, 6], [7, 7, 7, 7, 7, 7], [8, 8, 8, 8, 8, 8]],
    s_ddot := [[0, 0, 0, 0, 0, 0], [0, 0, 0, 0, 0, 0], [0, 0, 0, 0, 0, 0], [0, 0, 0, 0, 0, 0]],
    f_tool_measured := [9, 9, 9, 9, 9, 9] }

/-- The manipulator holding `sampleShortState`. -/
def sampleShortArm : Manipulator Int := { state := sampleShortState }

/-- The manipulator holding `sampleArmState`. -/
def sampleArm : Manipulator Int := { state := sampleArmState }

/-- A log record whose eight arrays hold eight distinct values: 1 in the tool
pose, 2 in the tool twist, 3 in the elbow pose, 4 in the elbow twist, 5 in the
measured wrench, 6 in beta, 7 in the torque command, 8 in the commanded wrench. -/
def sampleLogRecord : LogManipulatorData Int :=
  { f_tool_measured := [5, 5, 5, 5, 5, 5],
    tool_pose := [1, 1, 1, 1, 1, 1],
    tool_twist := [2, 2, 2, 2, 2, 2],
    elbow_pose := [3, 3, 3, 3, 3, 3],
    elbow_twist := [4, 4, 4, 4, 4, 4],
    beta := [6, 6, 6, 6, 6, 6],
    tau_command := [7, 7, 7, 7, 7, 7, 7],
    f_tool_command := [8, 8, 8, 8, 8, 8] }

/-- Stream conversion used with the sample records: the decimal digits, which is
what an output stream prints for a `double` holding a small whole number. -/
def showWhole (v : Int) : String := toString v

/-- A manipulator log as its constructor returns it for `arm_name = "arm"` and
`log_dir = "log"` when `filename` points to enough writable storage and the
file opens, with `sampleLogRecord` buffered. -/
def sampleManipulatorLog : LogManipulatorDataVector Int :=
  { arm_name := "arm",
    log_data := [sampleLogRecord],
    log_dir := "log",
    filename := "log/arm_manipulator_log.csv",
    file := fprintf FILE.fresh manipulatorLogHeader }

/-- A control log as its constructor returns it for `control_variable = "pos"`
and `log_dir = "log"` when `filename` points to enough writable storage and the
file opens: empty buffer, only the header written. -/
def sampleControlLog : LogControlDataVector Int :=
  { control_variable := "pos",
    control_data := [],
    log_dir := "log",
    filename := "log/control_log_pos.csv",
    file := fprintf FILE.fresh controlLogHeader }

/-! ## Helper lemmas on buffers -/

section BufferLemmas

variable {α : Type} [LinearOrderedRing α]

theorem addScaled_length (x y : List α) (dt : α) :
    (addScaled x y dt).length = min x.length y.length := by
  simp [addScaled]

theorem addScaled_getD (x y : List α) (dt : α) (i : Nat)
    (hx : i < x.length) (hy : i < y.length) :
    (addScaled x y dt).getD i 0 = x.getD i 0 + y.getD i 0 * dt := by
  induction x generalizing y i with
  | nil => simp at hx
  | cons a x ih =>
    cases y with
    | nil => simp at hy
    | cons b y =>
      cases i with
      | zero => simp [addScaled]
      | succ i =>
        have hx1 : i < x.length := by simpa using hx
        have hy1 : i < y.length := by simpa using hy
        simpa [addScaled] using ih y i hx1 hy1

theorem addScaled_zeroArray (x : List α) (dt : α) (n : Nat) (h : x.length = n) :
    addScaled x (zeroArray n) dt = x := by
  induction x generalizing n with
  | nil => simp [addScaled]
  | cons a x ih =>
    cases n with
    | zero => simp at h
    | succ n =>
      have hx : x.length = n := by simpa using h
      have := ih n hx
      simp only [addScaled, zeroArray] at this
      simp [addScaled, zeroArray, List.replicate_succ, this]

theorem updateQandQdot_of_pos (qdd : List α) (dt : α) (rob : Kinova α) (hdt : 0 < dt) :
    updateQandQdot qdd dt rob =
      (Except.ok (),
        { rob with
          q_dot := addScaled rob.q_dot qdd dt,
          q := addScaled rob.q (addScaled rob.q_dot qdd dt) dt }) := by
  simp [updateQandQdot, not_le.mpr hdt]

theorem updateQandQd_of_pos (st : JntState α) (qdd : List α) (dt : α) (hdt : 0 < dt) :
    SolverUtils.updateQandQd st qdd dt =
      (Except.ok (),
        { q := addScaled st.q (addScaled st.qd qdd dt) dt,
          qd := addScaled st.qd qdd dt }) := by
  simp [SolverUtils.updateQandQd, not_le.mpr hdt]

end BufferLemmas

/-! ## State integrator -/

section IntegratorTheorems

variable {α : Type} [LinearOrderedRing α]

/-- C1: for every robot state whose joint arrays have `nj` entries, every
acceleration array `qdd` of `nj` entries and every `dt > 0`, the integrator
(`updateQandQdot`, and `SolverUtils::updateQandQd` on the same arrays) succeeds,
keeps the array lengths, and leaves for each joint `i`
`q_dot'[i] = q_dot[i] + qdd[i] * dt` and `q'[i] = q[i] + q_dot'[i] * dt`: the
position is advanced with the already updated velocity. -/
theorem integrator_semi_implicit_euler (rob : Kinova α) (qdd : List α) (dt : α)
    (hrob : rob.JointArraysSized) (hqdd : (qdd.length : Int) = rob.nj) (hdt : 0 < dt) :
    ((updateQandQdot qdd dt rob).1 = Except.ok () ∧
      (updateQandQdot qdd dt rob).2.JointArraysSized ∧
      ∀ i : Nat, (i : Int) < rob.nj →
        (updateQandQdot qdd dt rob).2.q_dot.getD i 0
          = rob.q_dot.getD i 0 + qdd.getD i 0 * dt ∧
        (updateQandQdot qdd dt rob).2.q.getD i 0
          = rob.q.getD i 0 + (updateQandQdot qdd dt rob).2.q_dot.getD i 0 * dt) ∧
    ((SolverUtils.updateQandQd { q := rob.q, qd := rob.q_dot } qdd dt).1 = Except.ok () ∧
      ((SolverUtils.updateQandQd { q := rob.q, qd := rob.q_dot } qdd dt).2.q.length : Int)
        = rob.nj ∧
      ((SolverUtils.updateQandQd { q := rob.q, qd := rob.q_dot } qdd dt).2.qd.length : Int)
        = rob.nj ∧
      ∀ i : Nat, (i : Int) < rob.nj →
        (SolverUtils.updateQandQd { q := rob.q, qd := rob.q_dot } qdd dt).2.qd.getD i 0
          = rob.q_dot.getD i 0 + qdd.getD i 0 * dt ∧
        (SolverUtils.updateQandQd { q := rob.q, qd := rob.q_dot } qdd dt).2.q.getD i 0
          = rob.q.getD i 0
            + (SolverUtils.updateQandQd { q := rob.q, qd := rob.q_dot } qdd dt).2.qd.getD i 0
              * dt) := by
  obtain ⟨hq, hqd⟩ := hrob
  have hlen1 : (addScaled rob.q_dot qdd dt).length = rob.q_dot.length := by
    rw [addScaled_length]; omega
  have hlen2 : (addScaled rob.q (addScaled rob.q_dot qdd dt) dt).length = rob.q.length := by
    rw [addScaled_length, hlen1]; omega
  have key : ∀ i : Nat, (i : Int) < rob.nj →
      (addScaled rob.q_dot qdd dt).getD i 0 = rob.q_dot.getD i 0 + qdd.getD i 0 * dt ∧
      (addScaled rob.q (addScaled rob.q_dot qdd dt) dt).getD i 0
        = rob.q.getD i 0 + (addScaled rob.q_dot qdd dt).getD i 0 * dt := by
    intro i hi
    have h1 : i < rob.q_dot.length := by omega
    have h2 : i < qdd.length := by omega
    have h3 : i < rob.q.length := by omega
    have h4 : i < (addScaled rob.q_dot qdd dt).length := by omega
    exact ⟨addScaled_getD _ _ _ _ h1 h2, addScaled_getD _ _ _ _ h3 h4⟩
  rw [updateQandQdot_of_pos qdd dt rob hdt, updateQandQd_of_pos _ qdd dt hdt]
  refine ⟨⟨rfl, ⟨?_, ?_⟩, key⟩, rfl, ?_, ?_, key⟩
  · show ((addScaled rob.q (addScaled rob.q_dot qdd dt) dt).length : Int) = rob.nj
    omega
  · show ((addScaled rob.q_dot qdd dt).length : Int) = rob.nj
    omega
  · show ((addScaled rob.q (addScaled rob.q_dot qdd dt) dt).length : Int) = rob.nj
    omega
  · show ((addScaled rob.q_dot qdd dt).length : Int) = rob.nj
    omega

/-- Witness of C1 on a one-joint robot with `qdd = [2]` and `dt = 1`. -/
theorem integrator_semi_implicit_euler_witness :
    sampleKinova.JointArraysSized ∧ ((([2] : List Int).length : Int) = sampleKinova.nj) ∧
    (0 : Int) < 1 ∧
    (updateQandQdot [2] 1 sampleKinova).1 = Except.ok () ∧
    (updateQandQdot [2] 1 sampleKinova).2.q_dot.getD 0 0
      = sampleKinova.q_dot.getD 0 0 + ([2] : List Int).getD 0 0 * 1 ∧
    (updateQandQdot [2] 1 sampleKinova).2.q.getD 0 0
      = sampleKinova.q.getD 0 0 + (updateQandQdot [2] 1 sampleKinova).2.q_dot.getD 0 0 * 1 :=
  have h := integrator_semi_implicit_euler sampleKinova [2] 1 ⟨rfl, rfl⟩ rfl Int.one_pos
  ⟨⟨rfl, rfl⟩, rfl, Int.one_pos, h.1.1, (h.1.2.2 0 (by decide)).1,
    (h.1.2.2 0 (by decide)).2⟩

/-- C2 as stated fails: on a one-joint robot at `q = 0` moving with `q_dot = 1`,
two integrator calls with zero acceleration and `dt = 1` leave `q = 2`. -/
theorem integrator_zero_acceleration_moves_q :
    sampleKinova.JointArraysSized ∧ (0 : Int) < 1 ∧
    (updateQandQdot (zeroArray 1) 1 (updateQandQdot (zeroArray 1) 1 sampleKinova).2).2.q = [2] ∧
    (updateQandQdot (zeroArray 1) 1 (updateQandQdot (zeroArray 1) 1 sampleKinova).2).2.q
      ≠ sampleKinova.q := by
  refine ⟨⟨rfl, rfl⟩, Int.one_pos, ?_, ?_⟩ <;> decide

/-- C2, amended: for every robot state whose joint arrays have `nj` entries and
every `dt > 0`, two integrator calls with an all-zero acceleration array both
succeed, leave `q_dot` unchanged and advance each `q[i]` by `q_dot[i] * dt` per
call; `q` is unchanged when every joint velocity is zero. -/
theorem integrator_zero_acceleration_twice (rob : Kinova α) (dt : α) (n : Nat)
    (hrob : rob.JointArraysSized) (hn : (n : Int) = rob.nj) (hdt : 0 < dt) :
    (updateQandQdot (zeroArray n) dt rob).1 = Except.ok () ∧
    (updateQandQdot (zeroArray n) dt (updateQandQdot (zeroArray n) dt rob).2).1
      = Except.ok () ∧
    (updateQandQdot (zeroArray n) dt (updateQandQdot (zeroArray n) dt rob).2).2.q_dot
      = rob.q_dot ∧
    (∀ i : Nat, (i : Int) < rob.nj →
      (updateQandQdot (zeroArray n) dt (updateQandQdot (zeroArray n) dt rob).2).2.q.getD i 0
        = rob.q.getD i 0 + rob.q_dot.getD i 0 * dt + rob.q_dot.getD i 0 * dt) ∧
    ((∀ v ∈ rob.q_dot, v = 0) →
      (updateQandQdot (zeroArray n) dt (updateQandQdot (zeroArray n) dt rob).2).2.q
        = rob.q) := by
  obtain ⟨hq, hqd⟩ := hrob
  have hqdn : rob.q_dot.length = n := by omega
  have hqn : rob.q.length = n := by omega
  have hz : addScaled rob.q_dot (zeroArray n) dt = rob.q_dot :=
    addScaled_zeroArray rob.q_dot dt n hqdn
  have hlen : (addScaled rob.q rob.q_dot dt).length = n := by
    rw [addScaled_length]; omega
  have e1 : updateQandQdot (zeroArray n) dt rob
      = (Except.ok (), { rob with q := addScaled rob.q rob.q_dot dt }) := by
    rw [updateQandQdot_of_pos _ dt rob hdt, hz]
  have e2 : updateQandQdot (zeroArray n) dt { rob with q := addScaled rob.q rob.q_dot dt }
      = (Except.ok (),
          { rob with q := addScaled (addScaled rob.q rob.q_dot dt) rob.q_dot dt }) := by
    rw [updateQandQdot_of_pos _ dt _ hdt]
    simp only [hz]
  rw [e1]
  simp only [e2]
  refine ⟨trivial, trivial, trivial, ?_, ?_⟩
  · intro i hi
    have h1 : i < rob.q.length := by omega
    have h2 : i < rob.q_dot.length := by omega
    have h3 : i < (addScaled rob.q rob.q_dot dt).length := by omega
    rw [addScaled_getD _ _ _ _ h3 h2, addScaled_getD _ _ _ _ h1 h2]
  · intro hzero
    have hrep : rob.q_dot = zeroArray n := by
      rw [zeroArray, List.eq_replicate_iff]
      exact ⟨hqdn, hzero⟩
    have hstep : addScaled rob.q rob.q_dot dt = rob.q := by
      rw [hrep]; exact addScaled_zeroArray rob.q dt n hqn
    simp only [hstep]

/-- Witness of the amended C2 on a one-joint robot with `dt = 1`. -/
theorem integrator_zero_acceleration_twice_witness :
    sampleKinova.JointArraysSized ∧ ((1 : Nat) : Int) = sampleKinova.nj ∧ (0 : Int) < 1 ∧
    (updateQandQdot (zeroArray 1) 1 (updateQandQdot (zeroArray 1) 1 sampleKinova).2).2.q_dot
      = sampleKinova.q_dot ∧
    (updateQandQdot (zeroArray 1) 1 (updateQandQdot (zeroArray 1) 1 sampleKinova).2).2.q.getD 0 0
      = sampleKinova.q.getD 0 0 + sampleKinova.q_dot.getD 0 0 * 1
        + sampleKinova.q_dot.getD 0 0 * 1 :=
  have h := integrator_zero_acceleration_twice sampleKinova 1 1 ⟨rfl, rfl⟩ rfl Int.one_pos
  ⟨⟨rfl, rfl⟩, rfl, Int.one_pos, h.2.2.1, h.2.2.2.1 0 (by decide)⟩

/-- C4: for every robot state and acceleration array, the integrator
(`updateQandQdot` and `SolverUtils::updateQandQd`) called with `dt <= 0` fails
with `InvalidTimestepError` and leaves the state, in particular `q` and `q_dot`,
unchanged; it succeeds exactly when `dt > 0`. -/
theorem integrator_rejects_nonpositive_timestep (rob : Kinova α) (st : JntState α)
    (qdd : List α) (dt : α) :
    (dt ≤ 0 →
      (updateQandQdot qdd dt rob).1 = Except.error CoreError.InvalidTimestepError ∧
      (updateQandQdot qdd dt rob).2 = rob ∧
      (updateQandQdot qdd dt rob).2.q = rob.q ∧
      (updateQandQdot qdd dt rob).2.q_dot = rob.q_dot ∧
      (SolverUtils.updateQandQd st qdd dt).1 = Except.error CoreError.InvalidTimestepError ∧
      (SolverUtils.updateQandQd st qdd dt).2 = st) ∧
    ((updateQandQdot qdd dt rob).1 = Except.ok () ↔ 0 < dt) ∧
    ((SolverUtils.updateQandQd st qdd dt).1 = Except.ok () ↔ 0 < dt) := by
  refine ⟨?_, ?_, ?_⟩
  · intro h
    simp [updateQandQdot, SolverUtils.updateQandQd, h]
  · by_cases h : dt ≤ 0
    · simp [updateQandQdot, h, not_lt.mpr h]
    · simp [updateQandQdot, h, not_le.mp h]
  · by_cases h : dt ≤ 0
    · simp [SolverUtils.updateQandQd, h, not_lt.mpr h]
    · simp [SolverUtils.updateQandQd, h, not_le.mp h]

/-- Witness of C4 on a one-joint robot with `dt = 0`. -/
theorem integrator_rejects_nonpositive_timestep_witness :
    (0 : Int) ≤ 0 ∧
    (updateQandQdot [2] 0 sampleKinova).1 = Except.error CoreError.InvalidTimestepError ∧
    (updateQandQdot [2] 0 sampleKinova).2.q = sampleKinova.q ∧
    (updateQandQdot [2] 0 sampleKinova).2.q_dot = sampleKinova.q_dot :=
  have h := (integrator_rejects_nonpositive_timestep sampleKinova
    { q := [0], qd := [1] } [2] 0).1 (le_refl 0)
  ⟨le_refl 0, h.1, h.2.2.1, h.2.2.2.1⟩

end IntegratorTheorems

/-! ## Constraint formulator -/

/-- C3: building the constraint set from `k` alpha columns and `k` targets
succeeds with an alpha matrix of exactly `k` columns, the given columns in the
given order, and a beta vector of length `k` (for every `k`, in particular
`0 <= k <= 6`); when the number of columns differs from the number of targets the
operation fails with `ConstraintSizeMismatchError` and yields no constraint
set, truncated or padded. -/
theorem buildConstraints_sizes {α : Type} (compensate : List α → List α → α → α)
    (columns : List (List α)) (targets : List α) (g : Option (List α)) (k : Nat) :
    (columns.length = k → targets.length = k →
      ∃ cs, buildConstraints compensate columns targets g = Except.ok cs ∧
        cs.alpha.length = k ∧ cs.alpha = columns ∧ cs.beta.length = k ∧
        (g = none → cs.beta = targets)) ∧
    (columns.length ≠ targets.length →
      buildConstraints compensate columns targets g
        = Except.error CoreError.ConstraintSizeMismatchError) := by
  constructor
  · intro hc ht
    have hlen : columns.length = targets.length := by omega
    cases g with
    | none =>
      exact ⟨{ alpha := columns, beta := targets }, by simp [buildConstraints, hlen],
        hc, rfl, ht, fun _ => rfl⟩
    | some gv =>
      refine ⟨{ alpha := columns, beta := List.zipWith (compensate gv) columns targets },
        by simp [buildConstraints, hlen], hc, rfl, ?_, fun h => by cases h⟩
      simp [hc, ht]
  · intro hne
    simp [buildConstraints, hne]

/-- Witness of C3 on two columns (linear x, angular z) with two targets, and on
two columns with one target. -/
theorem buildConstraints_sizes_witness :
    ([[1, 0, 0, 0, 0, 0], [0, 0, 0, 0, 0, 1]] : List (List Int)).length = 2 ∧
    ([5, 7] : List Int).length = 2 ∧
    (∃ cs, buildConstraints (fun _ _ t => t) [[1, 0, 0, 0, 0, 0], [0, 0, 0, 0, 0, 1]]
        ([5, 7] : List Int) none = Except.ok cs ∧
      cs.alpha.length = 2 ∧ cs.alpha = [[1, 0, 0, 0, 0, 0], [0, 0, 0, 0, 0, 1]] ∧
      cs.beta.length = 2 ∧ ((none : Option (List Int)) = none → cs.beta = [5, 7])) ∧
    ([[1, 0, 0, 0, 0, 0], [0, 0, 0, 0, 0, 1]] : List (List Int)).length
      ≠ ([5] : List Int).length ∧
    buildConstraints (fun _ _ t => t) [[1, 0, 0, 0, 0, 0], [0, 0, 0, 0, 0, 1]]
        ([5] : List Int) none = Except.error CoreError.ConstraintSizeMismatchError :=
  ⟨rfl, rfl,
    (buildConstraints_sizes (fun _ _ t => t) [[1, 0, 0, 0, 0, 0], [0, 0, 0, 0, 0, 1]]
      ([5, 7] : List Int) none 2).1 rfl rfl,
    by decide,
    (buildConstraints_sizes (fun _ _ t => t) [[1, 0, 0, 0, 0, 0], [0, 0, 0, 0, 0, 1]]
      ([5] : List Int) none 2).2 (by decide)⟩

/-! ## Control log -/

theorem foldl_fprintf_written {β : Type} (row : β → String) (l : List β) (file : FILE) :
    (l.foldl (fun f d => fprintf f (row d)) file).written = file.written ++ l.map row := by
  induction l generalizing file with
  | nil => simp
  | cons d l ih =>
    rw [List.foldl_cons, ih]
    simp [fprintf]

theorem foldl_fprintf_closed {β : Type} (row : β → String) (l : List β) (file : FILE) :
    (l.foldl (fun f d => fprintf f (row d)) file).closed = file.closed := by
  induction l generalizing file with
  | nil => simp
  | cons d l ih =>
    rw [List.foldl_cons, ih]
    simp [fprintf]

theorem writeToOpenFile_written {α : Type} (fmt : α → String) (v : LogControlDataVector α) :
    (LogControlDataVector.writeToOpenFile fmt v).file.written
      = v.file.written ++ v.control_data.map (controlLogRow fmt) := by
  simp [LogControlDataVector.writeToOpenFile, foldl_fprintf_written]

theorem controlLogRow_populate {α : Type} (fmt : α → String) (m r c : α) :
    controlLogRow fmt (LogControlData.populate m r c) = csvLine [fmt r, fmt m, fmt c] := rfl

theorem addControlData_flush {α : Type} (fmt : α → String) (v : LogControlDataVector α)
    (m r c : α) (h : v.control_data.length + 1 ≥ 100) :
    LogControlDataVector.addControlData fmt v m r c
      = LogControlDataVector.writeToOpenFile fmt
          { v with control_data := v.control_data ++ [LogControlData.populate m r c] } := by
  simp [LogControlDataVector.addControlData, h]

theorem addControlData_buffer {α : Type} (fmt : α → String) (v : LogControlDataVector α)
    (m r c : α) (h : v.control_data.length + 1 < 100) :
    LogControlDataVector.addControlData fmt v m r c
      = { v with control_data := v.control_data ++ [LogControlData.populate m r c] } := by
  have h1 : ¬ (100 ≤ v.control_data.length + 1) := by omega
  simp [LogControlDataVector.addControlData, h1]

/-- C5: for every vector and every call `addControlData(measured, reference,
control)`, once `writeToOpenFile` has run the file holds what it held before,
then the rows of the records buffered before, then the row of this record,
which is the line of the three cells reference value, measured value, control
signal in that order; the buffer is empty; and that is the column order of the
header line `Reference Value,Measured Value,Control Signal`. -/
theorem control_log_row_order {α : Type} (fmt : α → String) (v : LogControlDataVector α)
    (measured reference control : α) :
    (LogControlDataVector.writeToOpenFile fmt
        (LogControlDataVector.addControlData fmt v measured reference control)).file.written
      = v.file.written ++ v.control_data.map (controlLogRow fmt)
          ++ [csvLine [fmt reference, fmt measured, fmt control]] ∧
    (LogControlDataVector.writeToOpenFile fmt
        (LogControlDataVector.addControlData fmt v measured reference control)).control_data
      = [] ∧
    controlLogHeader = csvLine ["Reference Value", "Measured Value", "Control Signal"] ∧
    csvCells controlLogHeader = ["Reference Value", "Measured Value", "Control Signal"] := by
  refine ⟨?_, rfl, by decide, by decide⟩
  rw [writeToOpenFile_written]
  by_cases h : v.control_data.length + 1 ≥ 100
  · rw [addControlData_flush fmt v measured reference control h]
    rw [writeToOpenFile_written]
    simp [LogControlDataVector.writeToOpenFile, controlLogRow_populate]
  · rw [addControlData_buffer fmt v measured reference control (by omega)]
    simp [controlLogRow_populate]

/-! ## Manipulator log: what `populateManipulatorData` records and reads -/

theorem segmentRow_in_range {α : Type} (arr : List (List α)) (idx : Int)
    (h0 : 0 ≤ idx) (h1 : idx < arr.length) :
    ∃ row, segmentRow arr idx = Except.ok row ∧ arr[idx.toNat]? = some row ∧ row ∈ arr := by
  have hlt : idx.toNat < arr.length := by omega
  refine ⟨arr[idx.toNat], ?_, List.getElem?_eq_getElem hlt, List.getElem_mem hlt⟩
  simp [segmentRow, h0, List.getElem?_eq_getElem hlt]

theorem segmentRow_negative {α : Type} (arr : List (List α)) (idx : Int) (h : idx < 0) :
    segmentRow arr idx = Except.error (MemFault.segmentOutOfRange idx) := by
  have h0 : ¬ (0 ≤ idx) := by omega
  simp [segmentRow, h0]

theorem memcpy_six {α : Type} (row : List α) (h : row.length = 6) : memcpy 6 row = row := by
  simp [memcpy, List.take_of_length_le, h]

theorem populateManipulatorData_tool {α : Type} (self : LogManipulatorData α)
    (rob : Manipulator α) (pose twist : List α)
    (hp : segmentRow rob.state.s (toolSegment rob.state.ns) = Except.ok pose)
    (ht : segmentRow rob.state.s_dot (toolSegment rob.state.ns) = Except.ok twist) :
    (LogManipulatorData.populateManipulatorData self rob).2.tool_pose = memcpy 6 pose ∧
    (LogManipulatorData.populateManipulatorData self rob).2.tool_twist = memcpy 6 twist ∧
    (LogManipulatorData.populateManipulatorData self rob).2.f_tool_measured
      = memcpy 6 rob.state.f_tool_measured := by
  unfold LogManipulatorData.populateManipulatorData
  simp only [hp, ht]
  cases h3 : segmentRow rob.state.s (elbowSegment rob.state.ns) with
  | error e => exact ⟨rfl, rfl, rfl⟩
  | ok r4 =>
    cases h4 : segmentRow rob.state.s_dot (elbowSegment rob.state.ns) with
    | error e => exact ⟨rfl, rfl, rfl⟩
    | ok r5 => exact ⟨rfl, rfl, rfl⟩

theorem populateManipulatorData_ok {α : Type} (self : LogManipulatorData α)
    (rob : Manipulator α) (r2 r3 r4 r5 : List α)
    (h2 : segmentRow rob.state.s (toolSegment rob.state.ns) = Except.ok r2)
    (h3 : segmentRow rob.state.s_dot (toolSegment rob.state.ns) = Except.ok r3)
    (h4 : segmentRow rob.state.s (elbowSegment rob.state.ns) = Except.ok r4)
    (h5 : segmentRow rob.state.s_dot (elbowSegment rob.state.ns) = Except.ok r5) :
    (LogManipulatorData.populateManipulatorData self rob).1 = Except.ok () := by
  unfold LogManipulatorData.populateManipulatorData
  simp only [h2, h3, h4, h5]

theorem populateManipulatorData_elbow_fault {α : Type} (self : LogManipulatorData α)
    (rob : Manipulator α) (r2 r3 : List α)
    (h2 : segmentRow rob.state.s (toolSegment rob.state.ns) = Except.ok r2)
    (h3 : segmentRow rob.state.s_dot (toolSegment rob.state.ns) = Except.ok r3)
    (h4 : elbowSegment rob.state.ns < 0) :
    (LogManipulatorData.populateManipulatorData self rob).1
      = Except.error (MemFault.segmentOutOfRange (rob.state.ns - 4)) := by
  unfold LogManipulatorData.populateManipulatorData
  simp only [h2, h3, segmentRow_negative _ _ h4]
  rfl

theorem populateManipulatorData_long {α : Type} (self : LogManipulatorData α)
    (rob : Manipulator α) (hs : rob.state.Sized) (h4 : 4 ≤ rob.state.ns) :
    (LogManipulatorData.populateManipulatorData self rob).1 = Except.ok () := by
  obtain ⟨hls, hld, _, _, _⟩ := hs
  have ht0 : 0 ≤ toolSegment rob.state.ns := by unfold toolSegment; omega
  have hts : toolSegment rob.state.ns < rob.state.s.length := by unfold toolSegment; omega
  have htd : toolSegment rob.state.ns < rob.state.s_dot.length := by unfold toolSegment; omega
  have he0 : 0 ≤ elbowSegment rob.state.ns := by unfold elbowSegment; omega
  have hes : elbowSegment rob.state.ns < rob.state.s.length := by unfold elbowSegment; omega
  have hed : elbowSegment rob.state.ns < rob.state.s_dot.length := by
    unfold elbowSegment; omega
  obtain ⟨r2, hr2, _, _⟩ := segmentRow_in_range rob.state.s _ ht0 hts
  obtain ⟨r3, hr3, _, _⟩ := segmentRow_in_range rob.state.s_dot _ ht0 htd
  obtain ⟨r4, hr4, _, _⟩ := segmentRow_in_range rob.state.s _ he0 hes
  obtain ⟨r5, hr5, _, _⟩ := segmentRow_in_range rob.state.s_dot _ he0 hed
  exact populateManipulatorData_ok self rob r2 r3 r4 r5 hr2 hr3 hr4 hr5

/-- C6: for every manipulator state with `ns >= 1` segments whose buffers are
sized as the state declares, `populateManipulatorData` leaves in `tool_pose` and
`tool_twist` exactly the six values of the rows `s[ns-1]` and `s_dot[ns-1]`, the
rows of the tool segment at index `ns - 1`, and in `f_tool_measured` the state's
measured wrench unchanged; the call runs to completion when `ns >= 4`. -/
theorem populateManipulatorData_records_tool {α : Type} (self : LogManipulatorData α)
    (rob : Manipulator α) (hs : rob.state.Sized) (hns : 1 ≤ rob.state.ns) :
    (∃ pose twist,
      rob.state.s[(rob.state.ns - 1).toNat]? = some pose ∧
      rob.state.s_dot[(rob.state.ns - 1).toNat]? = some twist ∧
      pose.length = 6 ∧ twist.length = 6 ∧
      (LogManipulatorData.populateManipulatorData self rob).2.tool_pose = pose ∧
      (LogManipulatorData.populateManipulatorData self rob).2.tool_twist = twist) ∧
    (LogManipulatorData.populateManipulatorData self rob).2.f_tool_measured
      = rob.state.f_tool_measured ∧
    (4 ≤ rob.state.ns →
      (LogManipulatorData.populateManipulatorData self rob).1 = Except.ok ()) := by
  obtain ⟨hls, hld, hrs, hrd, hf⟩ := hs
  have ht0 : 0 ≤ toolSegment rob.state.ns := by unfold toolSegment; omega
  have hts : toolSegment rob.state.ns < rob.state.s.length := by unfold toolSegment; omega
  have htd : toolSegment rob.state.ns < rob.state.s_dot.length := by unfold toolSegment; omega
  obtain ⟨pose, hp, hpget, hpmem⟩ := segmentRow_in_range rob.state.s _ ht0 hts
  obtain ⟨twist, ht, htget, htmem⟩ := segmentRow_in_range rob.state.s_dot _ ht0 htd
  have hrec := populateManipulatorData_tool self rob pose twist hp ht
  rw [memcpy_six pose (hrs pose hpmem), memcpy_six twist (hrd twist htmem),
    memcpy_six _ hf] at hrec
  exact ⟨⟨pose, twist, hpget, htget, hrs pose hpmem, hrd twist htmem, hrec.1, hrec.2.1⟩,
    hrec.2.2, populateManipulatorData_long self rob ⟨hls, hld, hrs, hrd, hf⟩⟩

/-- Witness of C6 on a four-segment arm and a fresh record. -/
theorem populateManipulatorData_records_tool_witness :
    sampleArm.state.Sized ∧ 1 ≤ sampleArm.state.ns ∧
    (∃ pose twist,
      sampleArm.state.s[(sampleArm.state.ns - 1).toNat]? = some pose ∧
      sampleArm.state.s_dot[(sampleArm.state.ns - 1).toNat]? = some twist ∧
      pose.length = 6 ∧ twist.length = 6 ∧
      (LogManipulatorData.populateManipulatorData LogManipulatorData.fresh sampleArm).2.tool_pose
        = pose ∧
      (LogManipulatorData.populateManipulatorData LogManipulatorData.fresh sampleArm).2.tool_twist
        = twist) ∧
    (LogManipulatorData.populateManipulatorData
        LogManipulatorData.fresh sampleArm).2.f_tool_measured
      = sampleArm.state.f_tool_measured ∧
    (4 ≤ sampleArm.state.ns →
      (LogManipulatorData.populateManipulatorData LogManipulatorData.fresh sampleArm).1
        = Except.ok ()) :=
  have hS : sampleArm.state.Sized := by decide
  ⟨hS, by decide,
    populateManipulatorData_records_tool LogManipulatorData.fresh sampleArm hS (by decide)⟩

theorem populateManipulatorData_tool_fault {α : Type} (self : LogManipulatorData α)
    (rob : Manipulator α) (h : toolSegment rob.state.ns < 0) :
    (LogManipulatorData.populateManipulatorData self rob).1
      = Except.error (MemFault.segmentOutOfRange (rob.state.ns - 1)) := by
  unfold LogManipulatorData.populateManipulatorData
  simp only [segmentRow_negative _ _ h]
  rfl

theorem populateManipulatorData_short {α : Type} (self : LogManipulatorData α)
    (rob : Manipulator α) (hs : rob.state.Sized) (h1 : 1 ≤ rob.state.ns)
    (h3 : rob.state.ns ≤ 3) :
    (LogManipulatorData.populateManipulatorData self rob).1
      = Except.error (MemFault.segmentOutOfRange (rob.state.ns - 4)) := by
  obtain ⟨hls, hld, _, _, _⟩ := hs
  have ht0 : 0 ≤ toolSegment rob.state.ns := by unfold toolSegment; omega
  have hts : toolSegment rob.state.ns < rob.state.s.length := by unfold toolSegment; omega
  have htd : toolSegment rob.state.ns < rob.state.s_dot.length := by unfold toolSegment; omega
  obtain ⟨r2, h2, _, _⟩ := segmentRow_in_range rob.state.s _ ht0 hts
  obtain ⟨r3, h3s, _, _⟩ := segmentRow_in_range rob.state.s_dot _ ht0 htd
  exact populateManipulatorData_elbow_fault self rob r2 r3 h2 h3s
    (by unfold elbowSegment; omega)

theorem zeroSegments_sized (α : Type) [Zero α] (n : Nat) :
    (zeroSegments n : List (List α)).length = n ∧
    ∀ row ∈ (zeroSegments n : List (List α)), row.length = 6 := by
  constructor
  · simp [zeroSegments]
  · intro row hrow
    have := List.eq_of_mem_replicate hrow
    simp [this]

theorem initialize_robot_state_accepts (α : Type) [Zero α] (nj ns : Int)
    (hnj : 1 ≤ nj) (hns : 1 ≤ ns) :
    ∃ k : Kinova α, initialize_robot_state nj ns none = Except.ok k ∧ k.ns = ns ∧
      k.s = zeroSegments ns.toNat ∧ k.s_dot = zeroSegments ns.toNat := by
  have hcond : ¬ (nj ≤ 0 ∨ ns ≤ 0) := by omega
  simp only [initialize_robot_state, hcond, if_false]
  exact ⟨_, rfl, rfl, rfl, rfl⟩

/-- C10: for every manipulator state whose per-segment buffers have `ns` rows,
the segment indices that `populateManipulatorData` reads (`ns - 1` twice, then
`ns - 4` twice) all lie in `[0, ns)` if and only if `ns >= 4`, and the call runs
to completion if and only if `ns >= 4`; for `1 <= ns <= 3` the elbow index
`ns - 4` is negative and the call stops on that out-of-range read.  Robot-state
initialisation accepts every `nj >= 1` with `1 <= ns <= 3`, and on the state it
returns the call stops on that read as well. -/
theorem populateManipulatorData_reads_in_range_iff {α : Type} [Zero α]
    (self : LogManipulatorData α) (rob : Manipulator α) (nj ns : Int)
    (hs : rob.state.Sized) :
    ((∀ i ∈ populateManipulatorDataReads rob.state.ns, 0 ≤ i ∧ i < rob.state.ns)
      ↔ 4 ≤ rob.state.ns) ∧
    ((LogManipulatorData.populateManipulatorData self rob).1 = Except.ok ()
      ↔ 4 ≤ rob.state.ns) ∧
    (1 ≤ rob.state.ns → rob.state.ns ≤ 3 →
      elbowSegment rob.state.ns < 0 ∧
      (LogManipulatorData.populateManipulatorData self rob).1
        = Except.error (MemFault.segmentOutOfRange (rob.state.ns - 4))) ∧
    (1 ≤ nj → 1 ≤ ns → ns ≤ 3 →
      ∃ k : Kinova α, initialize_robot_state nj ns none = Except.ok k ∧ k.ns = ns ∧
        ∀ f : List α, f.length = 6 →
          ({ toKinova := k, f_tool_measured := f } : ManipulatorState α).Sized ∧
          (LogManipulatorData.populateManipulatorData self
              { state := { toKinova := k, f_tool_measured := f } }).1
            = Except.error (MemFault.segmentOutOfRange (ns - 4))) := by
  refine ⟨?_, ?_, ?_, ?_⟩
  · simp only [populateManipulatorDataReads, toolSegment, elbowSegment, List.mem_cons,
      List.mem_singleton, List.not_mem_nil, or_false]
    constructor
    · intro h
      have := h (rob.state.ns - 4) (Or.inr (Or.inr (Or.inl rfl)))
      omega
    · intro h i hi
      rcases hi with hi | hi | hi | hi <;> omega
  · constructor
    · intro hok
      by_contra hlt
      have hlen := hs.1
      by_cases h1 : 1 ≤ rob.state.ns
      · rw [populateManipulatorData_short self rob hs h1 (by omega)] at hok
        cases hok
      · rw [populateManipulatorData_tool_fault self rob (by unfold toolSegment; omega)] at hok
        cases hok
    · intro h4
      exact populateManipulatorData_long self rob hs h4
  · intro h1 h3
    exact ⟨by unfold elbowSegment; omega, populateManipulatorData_short self rob hs h1 h3⟩
  · intro hnj h1 h3
    obtain ⟨k, hk, hkns, hks, hkd⟩ := initialize_robot_state_accepts α nj ns hnj h1
    refine ⟨k, hk, hkns, ?_⟩
    intro f hf
    have hz := zeroSegments_sized α ns.toNat
    have hsz : ({ toKinova := k, f_tool_measured := f } : ManipulatorState α).Sized := by
      refine ⟨?_, ?_, ?_, ?_, hf⟩
      · show ((k.s.length : Nat) : Int) = k.ns
        rw [hks, hz.1, hkns]; omega
      · show ((k.s_dot.length : Nat) : Int) = k.ns
        rw [hkd, hz.1, hkns]; omega
      · show ∀ row ∈ k.s, row.length = 6
        rw [hks]; exact hz.2
      · show ∀ row ∈ k.s_dot, row.length = 6
        rw [hkd]; exact hz.2
    have hshort := populateManipulatorData_short self
      { state := { toKinova := k, f_tool_measured := f } } hsz
      (by show 1 ≤ k.ns; omega) (by show k.ns ≤ 3; omega)
    refine ⟨hsz, ?_⟩
    rw [hshort]
    show Except.error (MemFault.segmentOutOfRange (k.ns - 4)) = _
    rw [hkns]

/-- Witness of C10 on a state with a single segment, as initialisation returns
it for `nj = 1`, `ns = 1`. -/
theorem populateManipulatorData_reads_in_range_iff_witness :
    sampleShortArm.state.Sized ∧
    (elbowSegment sampleShortArm.state.ns < 0 ∧
      (LogManipulatorData.populateManipulatorData LogManipulatorData.fresh sampleShortArm).1
        = Except.error (MemFault.segmentOutOfRange (sampleShortArm.state.ns - 4))) ∧
    ¬ (∀ i ∈ populateManipulatorDataReads sampleShortArm.state.ns,
        0 ≤ i ∧ i < sampleShortArm.state.ns) :=
  have hS : sampleShortArm.state.Sized := by decide
  have h := populateManipulatorData_reads_in_range_iff LogManipulatorData.fresh
    sampleShortArm 1 1 hS
  ⟨hS, h.2.2.1 (by decide) (by decide), fun hall => absurd (h.1.mp hall) (by decide)⟩

/-! ## Manipulator log: header against data rows -/

set_option maxRecDepth 100000 in
/-- C7 fails on the code: the constructor of a manipulator log for arm `arm` in
directory `log`, with `filename` pointing to 64 writable bytes and the file
opening, returns a vector whose file holds the header; with one record
buffered, `writeToOpenFile` appends one row.  The header has 44 column names:
seven for the end-effector pose (`ee_s_qw` included), `ee_twist_qz` and
`elbow_s_x` fused into one name by a missing comma, seven for the elbow pose,
none for the elbow twist.  The row has 49 values, each followed by a comma (six
per pose and twist, the elbow twist included), so a reader sees 50 cells, the
last one empty, and from the seventh column on the values stand under the names
of other vectors. -/
theorem manipulator_log_header_row_mismatch :
    LogManipulatorDataVector.ctor Int (some 64) (fun _ => true) "arm" "log"
      = Proc.returned [] { sampleManipulatorLog with log_data := [] } ∧
    (LogManipulatorDataVector.writeToOpenFile showWhole sampleManipulatorLog).file.written
      = [manipulatorLogHeader, manipulatorLogRow showWhole sampleLogRecord] ∧
    csvCells manipulatorLogHeader =
      [
        "ee_s_x", "ee_s_y", "ee_s_z", "ee_s_qx", "ee_s_qy",
        "ee_s_qz", "ee_s_qw", "ee_twist_x", "ee_twist_y", "ee_twist_z",
        "ee_twist_qx", "ee_twist_qy", "ee_twist_qzelbow_s_x", "elbow_s_y", "elbow_s_z",
        "elbow_s_qx", "elbow_s_qy", "elbow_s_qz", "elbow_s_qw", "ee_f_e_x",
        " ee_f_e_y", " ee_f_e_z", " ee_f_e_qx", " ee_f_e_qy", " ee_f_e_qz",
        "ee_beta_x", "ee_beta_y", "ee_beta_z", "ee_beta_qx", "ee_beta_qy",
        "ee_beta_qz", "tau_c_1", "tau_c_2", "tau_c_3", "tau_c_4",
        "tau_c_5", "tau_c_6", "tau_c_7", "ee_f_c_x", "ee_f_c_y",
        "ee_f_c_z", "ee_f_c_qx", "ee_f_c_qy", "ee_f_c_qz"] ∧
    csvCells (manipulatorLogRow showWhole sampleLogRecord) =
      [
        "1", "1", "1", "1", "1", "1", "2", "2", "2", "2",
        "2", "2", "3", "3", "3", "3", "3", "3", "4", "4",
        "4", "4", "4", "4", "5", "5", "5", "5", "5", "5",
        "6", "6", "6", "6", "6", "6", "7", "7", "7", "7",
        "7", "7", "7", "8", "8", "8", "8", "8", "8", ""] ∧
    (csvCells manipulatorLogHeader).length = 44 ∧
    (csvCells (manipulatorLogRow showWhole sampleLogRecord)).length = 50 ∧
    (csvCells manipulatorLogHeader)[6]? = some "ee_s_qw" ∧
    (csvCells (manipulatorLogRow showWhole sampleLogRecord))[6]? = some "2" := by
  refine ⟨?_, by decide, by decide, by decide, by decide, by decide, by decide, by decide⟩
  have hname : "log" ++ "/" ++ "arm" ++ "_manipulator_log.csv" = "log/arm_manipulator_log.csv" := by
    decide
  have hfit : sprintfFits (some 64) "log/arm_manipulator_log.csv" = true := by decide
  simp only [LogManipulatorDataVector.ctor, hname, hfit, if_true]
  rfl

/-! ## Printing and exiting: the log constructors and the other operations -/

theorem ofValue_quiet {σ : Type} (value : σ) :
    (Proc.ofValue value).discard.stderr = [] ∧
    (Proc.ofValue value).discard.exitStatus = none ∧
    (Proc.ofValue value).discard.isReturned = true :=
  ⟨rfl, rfl, rfl⟩

theorem addControlDataCalls_snoc {α : Type} (fmt : α → String) (v : LogControlDataVector α)
    (l : List (ControlCall α)) (c : ControlCall α) :
    LogControlDataVector.addControlDataCalls fmt v (l ++ [c])
      = LogControlDataVector.addControlData fmt
          (LogControlDataVector.addControlDataCalls fmt v l) c.1 c.2.1 c.2.2 := by
  simp [LogControlDataVector.addControlDataCalls, List.foldl_append]

theorem map_take_drop_rows {β γ δ : Type} (f : β → γ) (g : γ → δ) (k : Nat)
    (l : List β) :
    List.map (fun c => g (f c)) (List.take k l) ++ List.map g (List.map f (List.drop k l))
      = List.map (fun c => g (f c)) l := by
  have hcomp : (g ∘ f) = fun c => g (f c) := rfl
  rw [List.map_map, hcomp, ← List.map_append, List.take_append_drop]

theorem addControlDataCalls_state {α : Type} (fmt : α → String) (v : LogControlDataVector α)
    (hbuf : v.control_data = []) (calls : List (ControlCall α)) :
    (LogControlDataVector.addControlDataCalls fmt v calls).file.written
      = v.file.written
          ++ (calls.take (100 * (calls.length / 100))).map
              (fun c => controlLogRow fmt (ControlCall.record c)) ∧
    (LogControlDataVector.addControlDataCalls fmt v calls).control_data
      = (calls.drop (100 * (calls.length / 100))).map ControlCall.record ∧
    (LogControlDataVector.addControlDataCalls fmt v calls).file.closed = v.file.closed := by
  induction calls using List.reverseRecOn with
  | nil => simp [LogControlDataVector.addControlDataCalls, hbuf]
  | append_singleton l c ih =>
    obtain ⟨ihw, ihb, ihc⟩ := ih
    have hblen : (LogControlDataVector.addControlDataCalls fmt v l).control_data.length
        = l.length % 100 := by
      rw [ihb, List.length_map, List.length_drop]
      omega
    rw [addControlDataCalls_snoc]
    by_cases hfull : l.length % 100 + 1 ≥ 100
    · have hk : 100 * ((l ++ [c]).length / 100) = (l ++ [c]).length := by
        rw [List.length_append, List.length_singleton]; omega
      rw [addControlData_flush fmt _ c.1 c.2.1 c.2.2 (by omega), hk, List.take_length,
        List.drop_length]
      refine ⟨?_, rfl, ?_⟩
      · rw [writeToOpenFile_written]
        show (LogControlDataVector.addControlDataCalls fmt v l).file.written
            ++ List.map (controlLogRow fmt)
                ((LogControlDataVector.addControlDataCalls fmt v l).control_data
                  ++ [LogControlData.populate c.1 c.2.1 c.2.2]) = _
        rw [ihw, ihb, List.map_append, List.map_append, List.append_assoc,
          ← List.append_assoc (List.map _ (List.take _ l)), map_take_drop_rows]
        rfl
      · show (List.foldl (fun f d => fprintf f (controlLogRow fmt d))
            (LogControlDataVector.addControlDataCalls fmt v l).file _).closed = _
        rw [foldl_fprintf_closed, ihc]
    · have hk : 100 * ((l ++ [c]).length / 100) = 100 * (l.length / 100) := by
        rw [List.length_append, List.length_singleton]; omega
      have hle : 100 * (l.length / 100) ≤ l.length := by omega
      rw [addControlData_buffer fmt _ c.1 c.2.1 c.2.2 (by omega), hk,
        List.take_append_of_le_length hle, List.drop_append_of_le_length hle]
      refine ⟨ihw, ?_, ihc⟩
      show (LogControlDataVector.addControlDataCalls fmt v l).control_data
          ++ [LogControlData.populate c.1 c.2.1 c.2.2] = _
      rw [ihb]
      simp [ControlCall.record]

/-- C9: for every `n` and every sequence of `n` calls to `addControlData` on a
freshly constructed `LogControlDataVector` (empty buffer, only the header
written), the file holds the header followed by exactly `100 * (n / 100)` data
rows, those of the first `100 * (n / 100)` calls in call order, and the buffer
holds the records of the remaining `n % 100` calls in call order, fewer than
100; the destructor closes the file without writing, and an explicit
`writeToOpenFile` writes the rows of the remaining records. -/
theorem addControlData_flushes_in_hundreds {α : Type} (fmt : α → String)
    (v : LogControlDataVector α) (calls : List (ControlCall α))
    (hbuf : v.control_data = []) (hfile : v.file.written = [controlLogHeader]) :
    (LogControlDataVector.addControlDataCalls fmt v calls).file.written
      = controlLogHeader ::
          (calls.take (100 * (calls.length / 100))).map
            (fun c => controlLogRow fmt (ControlCall.record c)) ∧
    (LogControlDataVector.addControlDataCalls fmt v calls).file.written.length
      = 1 + 100 * (calls.length / 100) ∧
    (LogControlDataVector.addControlDataCalls fmt v calls).control_data
      = (calls.drop (100 * (calls.length / 100))).map ControlCall.record ∧
    (LogControlDataVector.addControlDataCalls fmt v calls).control_data.length
      = calls.length % 100 ∧
    (LogControlDataVector.addControlDataCalls fmt v calls).control_data.length < 100 ∧
    (LogControlDataVector.dtor
        (LogControlDataVector.addControlDataCalls fmt v calls)).file.written
      = (LogControlDataVector.addControlDataCalls fmt v calls).file.written ∧
    (LogControlDataVector.dtor
        (LogControlDataVector.addControlDataCalls fmt v calls)).file.closed = true ∧
    (LogControlDataVector.writeToOpenFile fmt
        (LogControlDataVector.addControlDataCalls fmt v calls)).file.written
      = controlLogHeader :: calls.map (fun c => controlLogRow fmt (ControlCall.record c)) := by
  obtain ⟨hw, hb, _⟩ := addControlDataCalls_state fmt v hbuf calls
  rw [hfile] at hw
  have hle : 100 * (calls.length / 100) ≤ calls.length := by omega
  have hlen : (LogControlDataVector.addControlDataCalls fmt v calls).control_data.length
      = calls.length % 100 := by
    rw [hb, List.length_map, List.length_drop]
    omega
  refine ⟨hw, ?_, hb, hlen, ?_, rfl, rfl, ?_⟩
  · rw [hw]
    simp only [List.singleton_append, List.length_cons, List.length_map, List.length_take]
    omega
  · rw [hlen]
    exact Nat.mod_lt _ (by decide)
  · rw [writeToOpenFile_written, hw, hb, List.append_assoc, map_take_drop_rows]
    rfl

/-- Witness of C9 on a fresh control log and two calls. -/
theorem addControlData_flushes_in_hundreds_witness :
    sampleControlLog.control_data = [] ∧ sampleControlLog.file.written = [controlLogHeader] ∧
    (LogControlDataVector.addControlDataCalls showWhole sampleControlLog
        [(1, 2, 3), (4, 5, 6)]).file.written
      = controlLogHeader ::
          (([(1, 2, 3), (4, 5, 6)] : List (ControlCall Int)).take
            (100 * (([(1, 2, 3), (4, 5, 6)] : List (ControlCall Int)).length / 100))).map
            (fun c => controlLogRow showWhole (ControlCall.record c)) ∧
    (LogControlDataVector.addControlDataCalls showWhole sampleControlLog
        [(1, 2, 3), (4, 5, 6)]).control_data.length
      = ([(1, 2, 3), (4, 5, 6)] : List (ControlCall Int)).length % 100 :=
  have h := addControlData_flushes_in_hundreds showWhole sampleControlLog
    [(1, 2, 3), (4, 5, 6)] rfl rfl
  ⟨rfl, rfl, h.1, h.2.2.2.1⟩

/-! ## Manipulator log: what `populateAchdData` writes and what it leaves -/

theorem memcpy_seven {α : Type} (row : List α) (h : row.length = 7) : memcpy 7 row = row := by
  simp [memcpy, List.take_of_length_le, h]

/-- C11: for every `LogManipulatorData` record and every argument tuple with
seven torque values and six values behind each non-null pointer,
`populateAchdData(beta, tau_command, f_tool_command, q_ddot)` sets the record's
`tau_command` to the seven given values whatever the other arguments are, sets
`beta` to the six given values when `beta` is non-null and leaves it as it was
when `beta` is null (all zeros on a fresh record), does the same for
`f_tool_command`, gives the same record for every `q_ddot`, and leaves
`f_tool_measured`, `tool_pose`, `tool_twist`, `elbow_pose` and `elbow_twist`
unchanged. -/
theorem populateAchdData_frame {α : Type} [Zero α] (self : LogManipulatorData α)
    (beta : Option (List α)) (tau_command : List α) (f_tool_command : Option (List α))
    (q_ddot : Option (List α))
    (htau : tau_command.length = 7)
    (hbeta : ∀ b, beta = some b → b.length = 6)
    (hf : ∀ f, f_tool_command = some f → f.length = 6) :
    (LogManipulatorData.populateAchdData self beta tau_command f_tool_command q_ddot).tau_command
      = tau_command ∧
    (∀ b, beta = some b →
      (LogManipulatorData.populateAchdData self beta tau_command f_tool_command q_ddot).beta
        = b) ∧
    (beta = none →
      (LogManipulatorData.populateAchdData self beta tau_command f_tool_command q_ddot).beta
        = self.beta) ∧
    (beta = none →
      (LogManipulatorData.populateAchdData LogManipulatorData.fresh beta tau_command
          f_tool_command q_ddot).beta = List.replicate 6 (0 : α)) ∧
    (∀ f, f_tool_command = some f →
      (LogManipulatorData.populateAchdData self beta tau_command f_tool_command
          q_ddot).f_tool_command = f) ∧
    (f_tool_command = none →
      (LogManipulatorData.populateAchdData self beta tau_command f_tool_command
          q_ddot).f_tool_command = self.f_tool_command) ∧
    (f_tool_command = none →
      (LogManipulatorData.populateAchdData LogManipulatorData.fresh beta tau_command
          f_tool_command q_ddot).f_tool_command = List.replicate 6 (0 : α)) ∧
    (∀ other : Option (List α),
      LogManipulatorData.populateAchdData self beta tau_command f_tool_command other
        = LogManipulatorData.populateAchdData self beta tau_command f_tool_command q_ddot) ∧
    (LogManipulatorData.populateAchdData self beta tau_command f_tool_command
        q_ddot).f_tool_measured = self.f_tool_measured ∧
    (LogManipulatorData.populateAchdData self beta tau_command f_tool_command q_ddot).tool_pose
      = self.tool_pose ∧
    (LogManipulatorData.populateAchdData self beta tau_command f_tool_command q_ddot).tool_twist
      = self.tool_twist ∧
    (LogManipulatorData.populateAchdData self beta tau_command f_tool_command q_ddot).elbow_pose
      = self.elbow_pose ∧
    (LogManipulatorData.populateAchdData self beta tau_command f_tool_command q_ddot).elbow_twist
      = self.elbow_twist := by
  have h7 := memcpy_seven tau_command htau
  cases beta with
  | none =>
    cases f_tool_command with
    | none =>
      simp [LogManipulatorData.populateAchdData, LogManipulatorData.fresh, h7]
    | some f =>
      have h6 := memcpy_six f (hf f rfl)
      simp [LogManipulatorData.populateAchdData, LogManipulatorData.fresh, h7, h6]
  | some b =>
    have hb6 := memcpy_six b (hbeta b rfl)
    cases f_tool_command with
    | none =>
      simp [LogManipulatorData.populateAchdData, LogManipulatorData.fresh, h7, hb6]
    | some f =>
      have h6 := memcpy_six f (hf f rfl)
      simp [LogManipulatorData.populateAchdData, LogManipulatorData.fresh, h7, hb6, h6]

/-- Witness of C11 on the sample record with a null `beta`, seven torques and a
commanded wrench of six values. -/
theorem populateAchdData_frame_witness :
    ([1, 2, 3, 4, 5, 6, 7] : List Int).length = 7 ∧
    (∀ b, (none : Option (List Int)) = some b → b.length = 6) ∧
    (∀ f, some ([9, 9, 9, 9, 9, 9] : List Int) = some f → f.length = 6) ∧
    (LogManipulatorData.populateAchdData sampleLogRecord none [1, 2, 3, 4, 5, 6, 7]
        (some [9, 9, 9, 9, 9, 9]) none).tau_command = [1, 2, 3, 4, 5, 6, 7] ∧
    (LogManipulatorData.populateAchdData sampleLogRecord none [1, 2, 3, 4, 5, 6, 7]
        (some [9, 9, 9, 9, 9, 9]) none).beta = sampleLogRecord.beta ∧
    (LogManipulatorData.populateAchdData sampleLogRecord none [1, 2, 3, 4, 5, 6, 7]
        (some [9, 9, 9, 9, 9, 9]) none).f_tool_command = [9, 9, 9, 9, 9, 9] ∧
    (LogManipulatorData.populateAchdData sampleLogRecord none [1, 2, 3, 4, 5, 6, 7]
        (some [9, 9, 9, 9, 9, 9]) none).tool_pose = sampleLogRecord.tool_pose :=
  have hb : ∀ b, (none : Option (List Int)) = some b → b.length = 6 :=
    fun _ h => nomatch h
  have hf : ∀ f, some ([9, 9, 9, 9, 9, 9] : List Int) = some f → f.length = 6 :=
    fun f h => by cases h; rfl
  have h := populateAchdData_frame sampleLogRecord none [1, 2, 3, 4, 5, 6, 7]
    (some [9, 9, 9, 9, 9, 9]) none rfl hb hf
  ⟨rfl, hb, hf, h.1, h.2.2.1 rfl, h.2.2.2.2.1 _ rfl, h.2.2.2.2.2.2.2.2.2.1⟩

end KdlUtils
